import Mathlib

/-!
Verification of the event-to-message synchronization engine of the
github_discord_bot repository.

The Python sources are shallowly embedded:
* JSON payloads (the webhook bodies and everything stored in the persisted
  document) become the inductive type `JVal`;
* Python dictionaries become association lists `List (String × JVal)` with
  first-match lookup (`dget`) and in-place-replace insert (`dinsert`), the
  semantics of `d[k] = v` / `d.get(k, default)` on Python dicts;
* code that can raise an uncaught Python exception returns `Option`/`Except`
  (`none` / `.error` = exception propagates);
* the Discord remote (channel lookup, `fetch_message`/`edit`, `send`) is an
  oracle argument recording the outcome of each remote call, and every model
  function returns a `Trace` counting the send / edit / render / channel-lookup
  calls it performed.
-/

/-- A JSON-like Python value, as produced by `json.load` on a webhook payload
or on the persisted document. -/
inductive JVal where
  | str : String → JVal
  | num : Int → JVal
  | bool : Bool → JVal
  | null : JVal
  | obj : List (String × JVal) → JVal
  | arr : List JVal → JVal

/-- First-match lookup in an association list: Python `k in d` / `d[k]`
(Python dicts hold each key once, so first-match is exact). -/
def dget {α : Type} : List (String × α) → String → Option α
  | [], _ => none
  | (k', v) :: rest, k => if k' = k then some v else dget rest k

/-- Python `d.get(k, default)`. -/
def dgetD {α : Type} (m : List (String × α)) (k : String) (d : α) : α :=
  (dget m k).getD d

/-- Python `d[k] = v` on a dict: replace the value in place if the key is
present, else append the new binding. -/
def dinsert {α : Type} (k : String) (v : α) : List (String × α) → List (String × α)
  | [] => [(k, v)]
  | (k', v') :: rest => if k' = k then (k, v) :: rest else (k', v') :: dinsert k v rest

/-- Python `x.get(k, default)` where `x` is an arbitrary value: succeeds only
when `x` is a dict, otherwise the attribute access raises (`none`). -/
def pyGet (x : JVal) (k : String) (default : JVal) : Option JVal :=
  match x with
  | .obj fields => some (dgetD fields k default)
  | _ => none

/-- Python truthiness, as used by `if not handler_config.get("enabled", False)`. -/
def pyTruthy : JVal → Bool
  | .str s => !(s == "")
  | .num i => !(i == 0)
  | .bool b => b
  | .null => false
  | .obj fields => !fields.isEmpty
  | .arr xs => !xs.isEmpty

/-- Python `str(x)` / f-string interpolation for the scalar values that occur
in keys. Containers never reach key positions in the modelled handlers; their
`repr` form is not modelled and is rendered as a fixed placeholder. -/
def pyStr : JVal → String
  | .str s => s
  | .num i => toString i
  | .bool b => if b then "True" else "False"
  | .null => "None"
  | .obj _ => "\x7b...\x7d"
  | .arr _ => "[...]"

/-- Python `key.split(':')[0]`: the prefix of `key` before the first `:`
(the whole string when there is no `:`). -/
def splitHead (key : String) : String :=
  String.mk (key.toList.takeWhile (fun c => c ≠ ':'))

/-! ## persistence/data_persistence.py -/

/-- The in-memory state of `DataPersistence`: the two Python dicts
`self.DATA_STORE` and `self.MESSAGE_MAP`.  Values are arbitrary JSON values
(records are dicts, message ids are ints), exactly as in the Python object. -/
structure DataPersistence where
  DATA_STORE : List (String × JVal)
  MESSAGE_MAP : List (String × JVal)

/-- What `json.load` on the persisted file can yield: the file is missing
(`FileNotFoundError`), holds text that is not JSON (`json.JSONDecodeError`),
or parses to a JSON value. -/
inductive FileState where
  | missing : FileState
  | corrupt : FileState
  | content : JVal → FileState

/-- `DataPersistence.save_data`: the JSON document written to the file
(`json.dump({"DATA_STORE": ..., "MESSAGE_MAP": ...}, f)`).  The text
serialization itself is not modelled; the document is kept as a `JVal`. -/
def save_data (dp : DataPersistence) : JVal :=
  JVal.obj [("DATA_STORE", JVal.obj dp.DATA_STORE),
            ("MESSAGE_MAP", JVal.obj dp.MESSAGE_MAP)]

/-- Python `x` coerced to a dict's binding list.  `load_data` assigns
`data.get("DATA_STORE", {})` to `self.DATA_STORE` without checking it is a
dict; the typed model keeps the two stores as dicts (which they are in every
document written by `save_data`), so a non-object value is read as empty. -/
def asObjD : JVal → List (String × JVal)
  | .obj fields => fields
  | _ => []

/-- `DataPersistence.load_data`: on a missing or undecodable file both maps
are reset to empty (and `save_data` is called); on a parsed document `data`,
`self.DATA_STORE = data.get("DATA_STORE", {})` and
`self.MESSAGE_MAP = data.get("MESSAGE_MAP", {})`.  If the parsed document is
not a dict, `.get` raises `AttributeError`, which no except-clause catches
(`none`). -/
def load_data : FileState → Option DataPersistence
  | .missing => some ⟨[], []⟩
  | .corrupt => some ⟨[], []⟩
  | .content data =>
    match data with
    | .obj fields =>
        some ⟨asObjD (dgetD fields "DATA_STORE" (JVal.obj [])),
              asObjD (dgetD fields "MESSAGE_MAP" (JVal.obj []))⟩
    | _ => none

/-- `DataPersistence.get_data_store`. -/
def get_data_store (dp : DataPersistence) : List (String × JVal) :=
  dp.DATA_STORE

/-- `DataPersistence.get_message_map`. -/
def get_message_map (dp : DataPersistence) : List (String × JVal) :=
  dp.MESSAGE_MAP

/-- Outcome of the file write performed by `save_data` (the `open`/
`json.dump` pair can raise `OSError`; `save_data` has no try/except). -/
inductive WriteOutcome where
  | ok : WriteOutcome
  | ioError : WriteOutcome

/-- `DataPersistence.update_data_store`: `self.DATA_STORE[key] = value` under
the lock, then `self.save_data()`.  The first component is the in-memory state
after the call (the mutation happens before the flush); the second is `.ok`
with the document written, or `.error` when the disk raises — `save_data`
neither catches nor logs the exception, so it propagates to the caller. -/
def update_data_store (dp : DataPersistence) (key : String) (value : JVal)
    (disk : WriteOutcome) : DataPersistence × Except String JVal :=
  let dp' : DataPersistence := { dp with DATA_STORE := dinsert key value dp.DATA_STORE }
  (dp', match disk with
        | .ok => .ok (save_data dp')
        | .ioError => .error "OSError")

/-- `DataPersistence.update_message_map`: `self.MESSAGE_MAP[key] = message_id`
under the lock, then `self.save_data()`; same flush discipline as
`update_data_store`. -/
def update_message_map (dp : DataPersistence) (key : String) (message_id : JVal)
    (disk : WriteOutcome) : DataPersistence × Except String JVal :=
  let dp' : DataPersistence := { dp with MESSAGE_MAP := dinsert key message_id dp.MESSAGE_MAP }
  (dp', match disk with
        | .ok => .ok (save_data dp')
        | .ioError => .error "OSError")

/-- The `github_webhook` route body around `handle_event` (webhook.py lines
74–80): any exception raised by the handler is caught and logged, and the
endpoint returns `("OK", 200)` either way. -/
def github_webhook_dispatch (handlerResult : Except String Unit) : String × Nat :=
  match handlerResult with
  | .ok _ => ("OK", 200)
  | .error _ => ("OK", 200)

/-! ## bot/discord_bot.py — the Sync Engine `send_or_edit` -/

/-- Outcome of `channel.fetch_message(message_id)` followed by
`old_msg.edit(embed=embed)`: both succeed, `fetch_message` raises
`discord.NotFound`, or either call raises some other exception
(`discord.HTTPException` or a generic error, both caught by the outer
handlers with no state change). -/
inductive EditRes where
  | ok : EditRes
  | notFound : EditRes
  | err : EditRes
  deriving DecidableEq

/-- Outcome of `channel.send(embed=embed)`: a new message with the given id,
or an exception (caught by the outer handlers). -/
inductive SendRes where
  | ok : Int → SendRes
  | err : SendRes
  deriving DecidableEq

/-- The remote-call oracle for one `send_or_edit` invocation. -/
structure Remote where
  edit : EditRes
  send : SendRes
  deriving DecidableEq

/-- Counts of the externally visible calls one invocation performs:
`channel.send`, the fetch/edit attempt on a stored id, `build_embed`
renderings, and `bot.get_channel` lookups. -/
structure Trace where
  sends : Nat
  edits : Nat
  renders : Nat
  channelLookups : Nat
  deriving DecidableEq, Repr

/-- The all-zero trace: no remote call, no rendering, no channel lookup. -/
def Trace.none : Trace := ⟨0, 0, 0, 0⟩

/-- Componentwise sum of traces of consecutive invocations. -/
def Trace.add (a b : Trace) : Trace :=
  ⟨a.sends + b.sends, a.edits + b.edits, a.renders + b.renders,
   a.channelLookups + b.channelLookups⟩

/-- The configuration and Discord-client environment `send_or_edit` reads:
`config.DEFAULT_DISCORD_CHANNEL_ID` and `self.bot.get_channel` (modelled as
a predicate telling whether the looked-up channel id resolves). -/
structure BotConfig where
  DEFAULT_DISCORD_CHANNEL_ID : Int
  channelExists : JVal → Bool

/-- Lines 52–57 of discord_bot.py:
`handler = key.split(':')[0]`,
`handlers = self.data_persistence.get_data_store().get("handlers", {})`,
`handler_config = handlers.get(handler, {})`.
`none` when the stored `handlers` value is not a dict (`.get` raises). -/
def handlerConfigOf (dataStore : List (String × JVal)) (key : String) : Option JVal :=
  let handler := splitHead key
  let handlers := dgetD dataStore "handlers" (JVal.obj [])
  pyGet handlers handler (JVal.obj [])

/-- `DiscordBot.send_or_edit` (discord_bot.py lines 43–95).  State in and out
is the owning `DataPersistence`; the remote oracle `r` fixes the outcome of
the remote calls of this invocation.  `none` models an exception escaping the
part of the body outside the try-block (malformed `handlers` configuration).
The disk flush inside `update_message_map` is taken as succeeding: a disk
error there would be caught by the outer `except Exception` after the map
mutation, leaving the same state. -/
def send_or_edit (cfg : BotConfig) (dp : DataPersistence) (r : Remote)
    (key : String) : Option (DataPersistence × Trace) := do
  let handler_config ← handlerConfigOf (get_data_store dp) key
  let enabledV ← pyGet handler_config "enabled" (JVal.bool false)
  if pyTruthy enabledV = false then
    -- disabled: log and return before rendering and channel lookup
    some (dp, Trace.none)
  else do
    let _data := dgetD (get_data_store dp) key (JVal.obj [])
    -- embed = build_embed(key, data, handler_name): external renderer, counted
    let channelIdV ← pyGet handler_config "channel_id"
        (JVal.num cfg.DEFAULT_DISCORD_CHANNEL_ID)
    if cfg.channelExists channelIdV = false then
      -- channel not found: log error and return (render and lookup happened)
      some (dp, ⟨0, 0, 1, 1⟩)
    else
      match dget (get_message_map dp) key with
      | some _message_id =>
        match r.edit with
        | .ok => some (dp, ⟨0, 1, 1, 1⟩)
        | .notFound =>
          -- discord.NotFound: send a new message, overwrite the map entry
          match r.send with
          | .ok newId =>
            some ((update_message_map dp key (JVal.num newId) .ok).1, ⟨1, 1, 1, 1⟩)
          | .err => some (dp, ⟨1, 1, 1, 1⟩)
        | .err => some (dp, ⟨0, 1, 1, 1⟩)
      | none =>
        match r.send with
        | .ok newId =>
          some ((update_message_map dp key (JVal.num newId) .ok).1, ⟨1, 0, 1, 1⟩)
        | .err => some (dp, ⟨1, 0, 1, 1⟩)

/-- The guard conditions under which one `send_or_edit` invocation reaches its
try-block: the handler configuration resolves, `enabled` is truthy, and the
configured channel id resolves to a channel.  Depends only on the
`DATA_STORE` (the `MESSAGE_MAP` is read only inside the try-block). -/
def routingOpen (cfg : BotConfig) (dataStore : List (String × JVal))
    (key : String) : Bool :=
  match handlerConfigOf dataStore key with
  | none => false
  | some hc =>
    match pyGet hc "enabled" (JVal.bool false) with
    | none => false
    | some e =>
      pyTruthy e &&
      (match pyGet hc "channel_id" (JVal.num cfg.DEFAULT_DISCORD_CHANNEL_ID) with
       | none => false
       | some cid => cfg.channelExists cid)

/-- A sequence of `send_or_edit` invocations for one key, as scheduled by
successive events: thread the state through and accumulate the traces.
(Each invocation is one unit of work on the bot's event loop; the loop runs
them one after another.) -/
def runEvents (cfg : BotConfig) (dp : DataPersistence) (key : String) :
    List Remote → Option (DataPersistence × Trace)
  | [] => some (dp, Trace.none)
  | r :: rs => do
    let (dp', tr) ← send_or_edit cfg dp r key
    let (dp'', tr') ← runEvents cfg dp' key rs
    some (dp'', tr.add tr')

/-! ## handlers/github_handlers.py — the Event Normalizers

Each handler takes the `DataPersistence` state and the payload, and returns
the state after its `update_data_store` calls together with the list of keys
it scheduled `send_or_edit` for (via `asyncio.run_coroutine_threadsafe`; the
scheduled coroutines run later on the bot loop, against the state as of that
later time).  `none` models an uncaught Python exception (an attribute access
on a non-dict payload member).  The disk flush inside `update_data_store` is
taken as succeeding here; a disk error would propagate out of the handler
(see the persistence theorems). -/

/-- Python iteration `for commit in commits:` requires a sequence; iterating
anything but a JSON array is not modelled (`none`). -/
def asArr : JVal → Option (List JVal)
  | .arr xs => some xs
  | _ => none

/-- `GitHubHandlers.handle_push` (lines 60–84). -/
def handle_push (dp : DataPersistence) (payload : JVal) :
    Option (DataPersistence × List String) := do
  let commitsV ← pyGet payload "commits" (JVal.arr [])
  let repo ← pyGet payload "repository" (JVal.obj [])
  let repo_full_name ← pyGet repo "full_name" (JVal.str "unknown/unknown")
  let commits ← asArr commitsV
  commits.foldlM (fun acc commit => do
      let sha ← pyGet commit "id" (JVal.str "")
      let message ← pyGet commit "message" (JVal.str "")
      let url ← pyGet commit "url" (JVal.str "#")
      let key := "push:" ++ pyStr sha
      let commit_data := JVal.obj [("message", message), ("url", url),
                                   ("repo_full_name", repo_full_name)]
      let dp' := (update_data_store acc.1 key commit_data .ok).1
      some (dp', acc.2 ++ [key]))
    (dp, ([] : List String))

/-- `GitHubHandlers.handle_check_run` (lines 86–114).  Note
`run_id = str(check_run.get("id", "unknown"))`. -/
def handle_check_run (dp : DataPersistence) (payload : JVal) :
    Option (DataPersistence × List String) := do
  let check_run ← pyGet payload "check_run" (JVal.obj [])
  let idV ← pyGet check_run "id" (JVal.str "unknown")
  let run_id := pyStr idV
  let name ← pyGet check_run "name" (JVal.str "Unnamed Check")
  let url ← pyGet check_run "html_url" (JVal.str "#")
  let status ← pyGet check_run "status" (JVal.str "unknown")
  let conclusion ← pyGet check_run "conclusion" (JVal.str "unknown")
  let head_sha ← pyGet check_run "head_sha" (JVal.str "unknown")
  let repo ← pyGet payload "repository" (JVal.obj [])
  let repo_full_name ← pyGet repo "full_name" (JVal.str "unknown/unknown")
  let key := "check_run:" ++ run_id
  let check_run_data := JVal.obj [("name", name), ("url", url),
    ("status", status), ("conclusion", conclusion), ("head_sha", head_sha),
    ("repo_full_name", repo_full_name)]
  let dp' := (update_data_store dp key check_run_data .ok).1
  some (dp', [key])

/-- Python `v == "s"` for a payload value against a string literal: true
exactly when `v` is that string (any non-string value compares unequal). -/
def pyEqStr (v : JVal) (s : String) : Bool :=
  match v with
  | .str s' => s' == s
  | _ => false

/-- `GitHubHandlers.handle_workflow_run` (lines 146–186).
`if action != "completed": return` — a Python `!=` between the payload value
and the string, true whenever the value is not that exact string. -/
def handle_workflow_run (dp : DataPersistence) (payload : JVal) :
    Option (DataPersistence × List String) := do
  let workflow_run ← pyGet payload "workflow_run" (JVal.obj [])
  let action ← pyGet payload "action" (JVal.str "")
  if pyEqStr action "completed" = false then
    some (dp, [])
  else do
    let idV ← pyGet workflow_run "id" (JVal.str "unknown")
    let run_id := pyStr idV
    let name ← pyGet workflow_run "name" (JVal.str "Unnamed Workflow")
    let status ← pyGet workflow_run "status" (JVal.str "unknown")
    let conclusion ← pyGet workflow_run "conclusion" (JVal.str "unknown")
    let url ← pyGet workflow_run "html_url" (JVal.str "#")
    let started_at ← pyGet workflow_run "started_at" (JVal.str "")
    let completed_at ← pyGet workflow_run "completed_at" (JVal.str "")
    let head_sha ← pyGet workflow_run "head_sha" (JVal.str "unknown")
    let repo ← pyGet workflow_run "repository" (JVal.obj [])
    let repo_full_name ← pyGet repo "full_name" (JVal.str "unknown/unknown")
    let key := "workflow_run:" ++ run_id
    let workflow_run_data := JVal.obj [("name", name), ("status", status),
      ("conclusion", conclusion), ("url", url), ("started_at", started_at),
      ("completed_at", completed_at), ("head_sha", head_sha),
      ("repo_full_name", repo_full_name)]
    let dp' := (update_data_store dp key workflow_run_data .ok).1
    some (dp', [key])

/-- `GitHubHandlers.handle_issues` (lines 306–331).  The key is
`f"issue:{issue_number}:{action}"`. -/
def handle_issues (dp : DataPersistence) (payload : JVal) :
    Option (DataPersistence × List String) := do
  let issue ← pyGet payload "issue" (JVal.obj [])
  let action ← pyGet payload "action" (JVal.str "unknown")
  let issue_number ← pyGet issue "number" (JVal.num 0)
  let title ← pyGet issue "title" (JVal.str "")
  let url ← pyGet issue "html_url" (JVal.str "#")
  let repo ← pyGet payload "repository" (JVal.obj [])
  let repo_full_name ← pyGet repo "full_name" (JVal.str "unknown/unknown")
  let key := "issue:" ++ pyStr issue_number ++ ":" ++ pyStr action
  let issue_data := JVal.obj [("title", title), ("url", url),
    ("action", action), ("repo_full_name", repo_full_name)]
  let dp' := (update_data_store dp key issue_data .ok).1
  some (dp', [key])

/-- `GitHubHandlers.handle_member` (lines 563–590).  The key is
`f"member:{member_login}:{repo_full_name}:{action}"`. -/
def handle_member (dp : DataPersistence) (payload : JVal) :
    Option (DataPersistence × List String) := do
  let member ← pyGet payload "member" (JVal.obj [])
  let member_login ← pyGet member "login" (JVal.str "unknown")
  let action ← pyGet payload "action" (JVal.str "unknown")
  let repo ← pyGet payload "repository" (JVal.obj [])
  let repo_full_name ← pyGet repo "full_name" (JVal.str "unknown/unknown")
  let repo2 ← pyGet payload "repository" (JVal.obj [])
  let repo_url ← pyGet repo2 "html_url" (JVal.str "#")
  let key := "member:" ++ pyStr member_login ++ ":" ++ pyStr repo_full_name
             ++ ":" ++ pyStr action
  let member_data := JVal.obj [("member_login", member_login),
    ("action", action), ("repo_full_name", repo_full_name),
    ("repo_url", repo_url)]
  let dp' := (update_data_store dp key member_data .ok).1
  some (dp', [key])

/-! ## Dictionary lemmas -/

theorem dget_dinsert_same {α : Type} (k : String) (v : α) (m : List (String × α)) :
    dget (dinsert k v m) k = some v := by
  induction m with
  | nil => simp [dinsert, dget]
  | cons hd tl ih =>
    obtain ⟨k', v'⟩ := hd
    by_cases h : k' = k
    · simp [dinsert, dget, h]
    · simp [dinsert, dget, h, ih]

theorem dget_dinsert_other {α : Type} (k k' : String) (h : k' ≠ k) (v : α)
    (m : List (String × α)) : dget (dinsert k v m) k' = dget m k' := by
  induction m with
  | nil => simp [dinsert, dget, Ne.symm h]
  | cons hd tl ih =>
    obtain ⟨k'', v''⟩ := hd
    by_cases hk : k'' = k
    · subst hk
      simp [dinsert, dget, Ne.symm h]
    · simp [dinsert, dget, hk, ih]

/-! ## Reduction lemmas for `send_or_edit` -/

/-- When the guard conditions hold, `send_or_edit` reaches its try-block and
behaves as the four-way case split on the Message Map entry and the remote
outcomes. -/
theorem send_or_edit_open (cfg : BotConfig) (dp : DataPersistence) (r : Remote)
    (key : String) (h : routingOpen cfg (get_data_store dp) key = true) :
    send_or_edit cfg dp r key =
      match dget (get_message_map dp) key with
      | some _ =>
        match r.edit with
        | .ok => some (dp, ⟨0, 1, 1, 1⟩)
        | .notFound =>
          match r.send with
          | .ok i => some ({ dp with MESSAGE_MAP := dinsert key (JVal.num i) dp.MESSAGE_MAP },
                           ⟨1, 1, 1, 1⟩)
          | .err => some (dp, ⟨1, 1, 1, 1⟩)
        | .err => some (dp, ⟨0, 1, 1, 1⟩)
      | none =>
        match r.send with
        | .ok i => some ({ dp with MESSAGE_MAP := dinsert key (JVal.num i) dp.MESSAGE_MAP },
                         ⟨1, 0, 1, 1⟩)
        | .err => some (dp, ⟨1, 0, 1, 1⟩) := by
  unfold routingOpen at h
  unfold send_or_edit
  split at h
  · simp at h
  · rename_i hc hco
    split at h
    · simp at h
    · rename_i e he
      rw [Bool.and_eq_true] at h
      obtain ⟨htr, hch⟩ := h
      split at hch
      · simp at hch
      · rename_i cid hcid
        simp [hco, he, htr, hcid, hch, update_message_map, get_message_map]

/-- When the handler configuration resolves but `enabled` is not truthy,
`send_or_edit` is a no-op with an empty trace (no render, no channel lookup,
no remote call, no state change). -/
theorem send_or_edit_disabled (cfg : BotConfig) (dp : DataPersistence) (r : Remote)
    (key : String) (hc e : JVal)
    (hco : handlerConfigOf (get_data_store dp) key = some hc)
    (he : pyGet hc "enabled" (JVal.bool false) = some e)
    (htr : pyTruthy e = false) :
    send_or_edit cfg dp r key = some (dp, Trace.none) := by
  unfold send_or_edit
  simp [hco, he, htr]

/-! ## Event sequences for one key -/

/-- A remote whose calls let this invocation finish with a live message:
either the edit succeeds, or it reports not-found and the recovery send
succeeds. -/
def goodRemote (r : Remote) : Bool :=
  match r.edit with
  | .ok => true
  | .notFound => match r.send with | .ok _ => true | .err => false
  | .err => false

/-- Number of invocations in the sequence whose edit reports not-found (each
of which triggers one self-heal resend). -/
def countResends (rs : List Remote) : Nat :=
  (rs.filter (fun r => match r.edit with | .notFound => true | _ => false)).length

/-- The message id held for the key after the sequence, starting from `v`:
each not-found edit with a successful resend replaces it with the new
message's id; everything else keeps it. -/
def lastVal (v : JVal) (rs : List Remote) : JVal :=
  rs.foldl (fun acc r =>
    match r.edit, r.send with
    | .notFound, .ok i => JVal.num i
    | _, _ => acc) v

theorem lastVal_of_no_resend (v : JVal) (rs : List Remote)
    (h : countResends rs = 0) : lastVal v rs = v := by
  induction rs generalizing v with
  | nil => rfl
  | cons r rs ih =>
    cases her : r.edit with
    | notFound =>
      exfalso
      simp [countResends, List.filter, her] at h
    | ok =>
      rw [lastVal, List.foldl_cons]
      have : countResends rs = 0 := by simpa [countResends, List.filter, her] using h
      simpa [her, lastVal] using ih _ this
    | err =>
      rw [lastVal, List.foldl_cons]
      have : countResends rs = 0 := by simpa [countResends, List.filter, her] using h
      simpa [her, lastVal] using ih _ this

/-- Invariant step for `runEvents` once a live message exists: with routing
open and every remote good, the sequence performs one edit attempt per event,
one resend per not-found, never touches the `DATA_STORE`, and leaves the
Message Map holding exactly the id of the newest successful send. -/
theorem runEvents_of_live (cfg : BotConfig) (key : String) :
    ∀ (rs : List Remote) (dp : DataPersistence) (cur : JVal),
      routingOpen cfg (get_data_store dp) key = true →
      dget (get_message_map dp) key = some cur →
      (∀ r ∈ rs, goodRemote r = true) →
      ∃ (dp' : DataPersistence) (tr : Trace),
        runEvents cfg dp key rs = some (dp', tr) ∧
        tr.sends = countResends rs ∧
        tr.edits = rs.length ∧
        dp'.DATA_STORE = dp.DATA_STORE ∧
        dget (get_message_map dp') key = some (lastVal cur rs) := by
  intro rs
  induction rs with
  | nil =>
    intro dp cur hro hcur _
    exact ⟨dp, Trace.none, rfl, rfl, rfl, rfl, by simpa [lastVal] using hcur⟩
  | cons r rs ih =>
    intro dp cur hro hcur hgood
    have hr : goodRemote r = true := hgood r (by simp)
    have hgood' : ∀ r' ∈ rs, goodRemote r' = true := fun r' hm => hgood r' (by simp [hm])
    cases her : r.edit with
    | ok =>
      have hstep : send_or_edit cfg dp r key = some (dp, ⟨0, 1, 1, 1⟩) := by
        rw [send_or_edit_open cfg dp r key hro]
        simp [hcur, her]
      obtain ⟨dp', tr, hrun, hs, he, hds, hmm⟩ := ih dp cur hro hcur hgood'
      refine ⟨dp', Trace.add ⟨0, 1, 1, 1⟩ tr, ?_, ?_, ?_, hds, ?_⟩
      · simp [runEvents, hstep, hrun]
      · simp [Trace.add, hs, countResends, List.filter, her]
      · simp [Trace.add, he, Nat.add_comm]
      · simpa [lastVal, her] using hmm
    | err =>
      exfalso
      simp [goodRemote, her] at hr
    | notFound =>
      cases hsend : r.send with
      | err =>
        exfalso
        simp [goodRemote, her, hsend] at hr
      | ok i =>
        have hstep : send_or_edit cfg dp r key =
            some ({ dp with MESSAGE_MAP := dinsert key (JVal.num i) dp.MESSAGE_MAP },
                  ⟨1, 1, 1, 1⟩) := by
          rw [send_or_edit_open cfg dp r key hro]
          simp [hcur, her, hsend]
        obtain ⟨dp', tr, hrun, hs, he, hds, hmm⟩ :=
          ih { dp with MESSAGE_MAP := dinsert key (JVal.num i) dp.MESSAGE_MAP }
            (JVal.num i) hro (dget_dinsert_same key (JVal.num i) dp.MESSAGE_MAP)
            hgood'
        refine ⟨dp', Trace.add ⟨1, 1, 1, 1⟩ tr, ?_, ?_, ?_, hds, ?_⟩
        · simp [runEvents, hstep, hrun]
        · simp [Trace.add, hs, countResends, List.filter, her, Nat.add_comm]
        · simp [Trace.add, he, Nat.add_comm]
        · simpa [lastVal, her, hsend] using hmm

/-! ## Sample data shared by the concrete witnesses -/

/-- A bot environment in which every channel id resolves; the default channel
id is 0. -/
def cfgAll : BotConfig := ⟨0, fun _ => true⟩

/-- A `DATA_STORE` whose routing table enables the `push` category (with no
channel override). -/
def dsPushEnabled : List (String × JVal) :=
  [("handlers", JVal.obj [("push", JVal.obj [("enabled", JVal.bool true)])])]

/-! ## C1 -/

/-- C1: for a sequence of events normalizing to the same key, with the key's
category enabled throughout (routing open) and starting with no live message,
where the first send succeeds and every later remote interaction is good
(edit succeeds, or reports not-found and the resend succeeds): exactly one
send occurs plus one per not-found edit, exactly N−1 edit attempts occur, the
`DATA_STORE` is untouched, and the Message Map ends holding exactly the id of
the newest successful send — in particular, when no edit reports not-found,
exactly one send total and the map still holds the first id. -/
theorem at_most_one_live_message (cfg : BotConfig) (dp : DataPersistence)
    (key : String) (r0 : Remote) (rs : List Remote) (i0 : Int)
    (hro : routingOpen cfg (get_data_store dp) key = true)
    (habsent : dget (get_message_map dp) key = none)
    (hsend0 : r0.send = .ok i0)
    (hgood : ∀ r ∈ rs, goodRemote r = true) :
    ∃ (dp' : DataPersistence) (tr : Trace),
      runEvents cfg dp key (r0 :: rs) = some (dp', tr) ∧
      tr.sends = 1 + countResends rs ∧
      tr.edits = rs.length ∧
      dp'.DATA_STORE = dp.DATA_STORE ∧
      dget (get_message_map dp') key = some (lastVal (JVal.num i0) rs) ∧
      (countResends rs = 0 →
        tr.sends = 1 ∧ lastVal (JVal.num i0) rs = JVal.num i0) := by
  have hstep : send_or_edit cfg dp r0 key =
      some ({ dp with MESSAGE_MAP := dinsert key (JVal.num i0) dp.MESSAGE_MAP },
            ⟨1, 0, 1, 1⟩) := by
    rw [send_or_edit_open cfg dp r0 key hro]
    simp [habsent, hsend0]
  obtain ⟨dp', tr, hrun, hs, he, hds, hmm⟩ :=
    runEvents_of_live cfg key rs
      { dp with MESSAGE_MAP := dinsert key (JVal.num i0) dp.MESSAGE_MAP }
      (JVal.num i0) hro (dget_dinsert_same key (JVal.num i0) dp.MESSAGE_MAP) hgood
  refine ⟨dp', Trace.add ⟨1, 0, 1, 1⟩ tr, ?_, ?_, ?_, hds, hmm, ?_⟩
  · simp [runEvents, hstep, hrun]
  · simp [Trace.add, hs]
  · simp [Trace.add, he]
  · intro h0
    exact ⟨by simp [Trace.add, hs, h0], lastVal_of_no_resend _ _ h0⟩

/-- Witness for C1: three events for key `push:abc` — a first send giving
message id 10, a successful edit, and a not-found edit healed by a send
giving id 12. -/
theorem at_most_one_live_message_witness :
    routingOpen cfgAll (get_data_store ⟨dsPushEnabled, []⟩) "push:abc" = true ∧
    dget (get_message_map (⟨dsPushEnabled, []⟩ : DataPersistence)) "push:abc" = none ∧
    (∃ (dp' : DataPersistence) (tr : Trace),
      runEvents cfgAll ⟨dsPushEnabled, []⟩ "push:abc"
        (⟨.ok, .ok 10⟩ :: [⟨.ok, .ok 99⟩, ⟨.notFound, .ok 12⟩]) = some (dp', tr) ∧
      tr.sends = 1 + countResends [⟨.ok, .ok 99⟩, ⟨.notFound, .ok 12⟩] ∧
      tr.edits = [(⟨.ok, .ok 99⟩ : Remote), ⟨.notFound, .ok 12⟩].length ∧
      dp'.DATA_STORE = (⟨dsPushEnabled, []⟩ : DataPersistence).DATA_STORE ∧
      dget (get_message_map dp') "push:abc" =
        some (lastVal (JVal.num 10) [⟨.ok, .ok 99⟩, ⟨.notFound, .ok 12⟩]) ∧
      (countResends [(⟨.ok, .ok 99⟩ : Remote), ⟨.notFound, .ok 12⟩] = 0 →
        tr.sends = 1 ∧
        lastVal (JVal.num 10) [⟨.ok, .ok 99⟩, ⟨.notFound, .ok 12⟩] = JVal.num 10)) :=
  ⟨rfl, rfl,
    at_most_one_live_message cfgAll ⟨dsPushEnabled, []⟩ "push:abc"
      ⟨.ok, .ok 10⟩ [⟨.ok, .ok 99⟩, ⟨.notFound, .ok 12⟩] 10
      rfl rfl rfl (by decide)⟩

/-! ## C3 -/

/-- C3: for a key already present in the Message Map, with routing open: a
successful edit leaves the whole persistence state (and in particular the
Message Map) unchanged; a not-found edit with a successful resend overwrites
the Message Map entry with the new id; any other remote failure aborts the
attempt with no state change (and no send). -/
theorem existing_key_edit_discipline (cfg : BotConfig) (dp : DataPersistence)
    (r : Remote) (key : String) (cur : JVal)
    (hro : routingOpen cfg (get_data_store dp) key = true)
    (hcur : dget (get_message_map dp) key = some cur) :
    (r.edit = .ok → send_or_edit cfg dp r key = some (dp, ⟨0, 1, 1, 1⟩)) ∧
    (∀ i : Int, r.edit = .notFound → r.send = .ok i →
      send_or_edit cfg dp r key =
        some ({ dp with MESSAGE_MAP := dinsert key (JVal.num i) dp.MESSAGE_MAP },
              ⟨1, 1, 1, 1⟩)) ∧
    (r.edit = .err → send_or_edit cfg dp r key = some (dp, ⟨0, 1, 1, 1⟩)) := by
  refine ⟨?_, ?_, ?_⟩
  · intro her
    rw [send_or_edit_open cfg dp r key hro]
    simp [hcur, her]
  · intro i her hsend
    rw [send_or_edit_open cfg dp r key hro]
    simp [hcur, her, hsend]
  · intro her
    rw [send_or_edit_open cfg dp r key hro]
    simp [hcur, her]

/-- Witness for C3: key `push:abc` holds message id 7; the remote reports
not-found on the edit and the resend yields id 12. -/
theorem existing_key_edit_discipline_witness :
    routingOpen cfgAll
      (get_data_store ⟨dsPushEnabled, [("push:abc", JVal.num 7)]⟩) "push:abc" = true ∧
    dget (get_message_map
      (⟨dsPushEnabled, [("push:abc", JVal.num 7)]⟩ : DataPersistence)) "push:abc" =
      some (JVal.num 7) ∧
    (((⟨.notFound, .ok 12⟩ : Remote).edit = .ok →
      send_or_edit cfgAll ⟨dsPushEnabled, [("push:abc", JVal.num 7)]⟩
        ⟨.notFound, .ok 12⟩ "push:abc" =
        some (⟨dsPushEnabled, [("push:abc", JVal.num 7)]⟩, ⟨0, 1, 1, 1⟩)) ∧
    (∀ i : Int, (⟨.notFound, .ok 12⟩ : Remote).edit = .notFound →
      (⟨.notFound, .ok 12⟩ : Remote).send = .ok i →
      send_or_edit cfgAll ⟨dsPushEnabled, [("push:abc", JVal.num 7)]⟩
        ⟨.notFound, .ok 12⟩ "push:abc" =
        some ({ (⟨dsPushEnabled, [("push:abc", JVal.num 7)]⟩ : DataPersistence) with
                MESSAGE_MAP := dinsert "push:abc" (JVal.num i)
                  [("push:abc", JVal.num 7)] },
              ⟨1, 1, 1, 1⟩)) ∧
    ((⟨.notFound, .ok 12⟩ : Remote).edit = .err →
      send_or_edit cfgAll ⟨dsPushEnabled, [("push:abc", JVal.num 7)]⟩
        ⟨.notFound, .ok 12⟩ "push:abc" =
        some (⟨dsPushEnabled, [("push:abc", JVal.num 7)]⟩, ⟨0, 1, 1, 1⟩))) :=
  ⟨rfl, rfl,
    existing_key_edit_discipline cfgAll ⟨dsPushEnabled, [("push:abc", JVal.num 7)]⟩
      ⟨.notFound, .ok 12⟩ "push:abc" (JVal.num 7) rfl rfl⟩

/-! ## C4 -/

/-- A one-commit `push` webhook payload with the given commit fields. -/
def pushPayload (sha msg url rfn : String) : JVal :=
  JVal.obj [("commits", JVal.arr [JVal.obj [("id", JVal.str sha),
    ("message", JVal.str msg), ("url", JVal.str url)]]),
    ("repository", JVal.obj [("full_name", JVal.str rfn)])]

/-- The record `handle_push` builds for such a commit. -/
def pushRecord (msg url rfn : String) : JVal :=
  JVal.obj [("message", JVal.str msg), ("url", JVal.str url),
    ("repo_full_name", JVal.str rfn)]

/-- C4: for a push event whose category is disabled when the scheduled
`send_or_edit` runs, the Record Store is still updated with the event's
normalized record, but `send_or_edit` is a pure no-op: zero sends, zero
edits, zero renders, zero channel lookups, state unchanged. -/
theorem disabled_routing_noop (cfg : BotConfig) (dp : DataPersistence)
    (r : Remote) (sha msg url rfn : String) (hc e : JVal)
    (hco : handlerConfigOf
      (get_data_store (update_data_store dp ("push:" ++ sha) (pushRecord msg url rfn) .ok).1)
      ("push:" ++ sha) = some hc)
    (he : pyGet hc "enabled" (JVal.bool false) = some e)
    (htr : pyTruthy e = false) :
    handle_push dp (pushPayload sha msg url rfn) =
      some ((update_data_store dp ("push:" ++ sha) (pushRecord msg url rfn) .ok).1,
            ["push:" ++ sha]) ∧
    dget (get_data_store
        (update_data_store dp ("push:" ++ sha) (pushRecord msg url rfn) .ok).1)
      ("push:" ++ sha) = some (pushRecord msg url rfn) ∧
    send_or_edit cfg
      (update_data_store dp ("push:" ++ sha) (pushRecord msg url rfn) .ok).1 r
      ("push:" ++ sha) =
      some ((update_data_store dp ("push:" ++ sha) (pushRecord msg url rfn) .ok).1,
            Trace.none) := by
  refine ⟨?_, ?_, ?_⟩
  · rfl
  · exact dget_dinsert_same _ _ _
  · exact send_or_edit_disabled cfg _ r _ hc e hco he htr

/-- Witness for C4: empty store (so the push category has no configuration
and defaults to disabled), one commit `abc`. -/
theorem disabled_routing_noop_witness :
    handlerConfigOf
      (get_data_store (update_data_store ⟨[], []⟩ ("push:" ++ "abc")
        (pushRecord "m" "u" "o/r") .ok).1) ("push:" ++ "abc") = some (JVal.obj []) ∧
    pyGet (JVal.obj []) "enabled" (JVal.bool false) = some (JVal.bool false) ∧
    pyTruthy (JVal.bool false) = false ∧
    (handle_push ⟨[], []⟩ (pushPayload "abc" "m" "u" "o/r") =
      some ((update_data_store ⟨[], []⟩ ("push:" ++ "abc")
              (pushRecord "m" "u" "o/r") .ok).1, ["push:" ++ "abc"]) ∧
    dget (get_data_store (update_data_store ⟨[], []⟩ ("push:" ++ "abc")
        (pushRecord "m" "u" "o/r") .ok).1) ("push:" ++ "abc") =
      some (pushRecord "m" "u" "o/r") ∧
    send_or_edit cfgAll
      (update_data_store ⟨[], []⟩ ("push:" ++ "abc") (pushRecord "m" "u" "o/r") .ok).1
      ⟨.ok, .ok 1⟩ ("push:" ++ "abc") =
      some ((update_data_store ⟨[], []⟩ ("push:" ++ "abc")
              (pushRecord "m" "u" "o/r") .ok).1, Trace.none)) :=
  ⟨rfl, rfl, rfl,
    disabled_routing_noop cfgAll ⟨[], []⟩ ⟨.ok, .ok 1⟩ "abc" "m" "u" "o/r"
      (JVal.obj []) (JVal.bool false) rfl rfl rfl⟩

/-! ## C10 -/

/-- C10: when the category of a key has no routing entry at all — the
`handlers` object is absent from the store, or the category is absent from
it, or the entry lacks an `enabled` field — `send_or_edit` is a no-op with an
empty trace: enablement defaults to disabled. -/
theorem unconfigured_category_noop (cfg : BotConfig) (dp : DataPersistence)
    (r : Remote) (key : String)
    (h : dget (get_data_store dp) "handlers" = none ∨
      ∃ hs, dget (get_data_store dp) "handlers" = some (JVal.obj hs) ∧
        (dget hs (splitHead key) = none ∨
         ∃ hcf, dget hs (splitHead key) = some (JVal.obj hcf) ∧
           dget hcf "enabled" = none)) :
    send_or_edit cfg dp r key = some (dp, Trace.none) := by
  rcases h with h1 | ⟨hs, h2, h3 | ⟨hcf, h4, h5⟩⟩
  · exact send_or_edit_disabled cfg dp r key (JVal.obj []) (JVal.bool false)
      (by simp [handlerConfigOf, pyGet, dgetD, dget, h1]) rfl rfl
  · exact send_or_edit_disabled cfg dp r key (JVal.obj []) (JVal.bool false)
      (by simp [handlerConfigOf, pyGet, dgetD, dget, h2, h3]) rfl rfl
  · exact send_or_edit_disabled cfg dp r key (JVal.obj hcf) (JVal.bool false)
      (by simp [handlerConfigOf, pyGet, dgetD, dget, h2, h4])
      (by simp [pyGet, dgetD, h5]) rfl

/-- Witness for C10: empty store (no `handlers` object at all). -/
theorem unconfigured_category_noop_witness :
    (dget (get_data_store (⟨[], []⟩ : DataPersistence)) "handlers" = none ∨
      ∃ hs, dget (get_data_store (⟨[], []⟩ : DataPersistence)) "handlers" =
          some (JVal.obj hs) ∧
        (dget hs (splitHead "push:abc") = none ∨
         ∃ hcf, dget hs (splitHead "push:abc") = some (JVal.obj hcf) ∧
           dget hcf "enabled" = none)) ∧
    send_or_edit cfgAll ⟨[], []⟩ ⟨.ok, .ok 1⟩ "push:abc" =
      some (⟨[], []⟩, Trace.none) :=
  ⟨Or.inl rfl,
    unconfigured_category_noop cfgAll ⟨[], []⟩ ⟨.ok, .ok 1⟩ "push:abc" (Or.inl rfl)⟩

/-! ## C2 -/

/-- Appending to a fixed string on the left is injective. -/
theorem string_append_left_cancel (s x y : String) (h : s ++ x = s ++ y) : x = y := by
  apply String.ext
  have h2 : s.data ++ x.data = s.data ++ y.data := by
    simpa [String.data_append] using congrArg String.data h
  exact List.append_cancel_left h2

/-- C2 counterexample: two `issues` payloads describing the same logical
entity (issue number 5 of the same repository) but carrying different
actions (`opened`, then `closed`) normalize to different keys — the key
`f"issue:{issue_number}:{action}"` includes the action, so entity-level key
stability fails. -/
theorem key_stability_counterexample :
    (handle_issues ⟨[], []⟩ (JVal.obj [("action", JVal.str "opened"),
        ("issue", JVal.obj [("number", JVal.num 5), ("title", JVal.str "T"),
          ("html_url", JVal.str "U")]),
        ("repository", JVal.obj [("full_name", JVal.str "o/r")])])).map Prod.snd =
      some ["issue:5:opened"] ∧
    (handle_issues ⟨[], []⟩ (JVal.obj [("action", JVal.str "closed"),
        ("issue", JVal.obj [("number", JVal.num 5), ("title", JVal.str "T"),
          ("html_url", JVal.str "U")]),
        ("repository", JVal.obj [("full_name", JVal.str "o/r")])])).map Prod.snd =
      some ["issue:5:closed"] ∧
    ("issue:5:opened" : String) ≠ "issue:5:closed" :=
  ⟨rfl, rfl, by decide⟩

/-- C2 (amended): the key of an `issues` event is determined by — and only
by — the issue number *and* the action, and the key of a `member` event by
the member login, the repository full name *and* the action: two valid
payloads agreeing on those fields normalize to the same key, while payloads
about the same entity whose stringified actions differ get different keys. -/
theorem key_stability_amended (dp1 dp2 dp3 dp4 : DataPersistence)
    (p1 p2 q1 q2 i1 i2 rp1 rp2 m1 m2 rq1 rq2 : JVal)
    (n a t1 t2 u1 u2 rf1 rf2 l ma mrf ru1 ru2 : JVal)
    (hi1 : pyGet p1 "issue" (JVal.obj []) = some i1)
    (ha1 : pyGet p1 "action" (JVal.str "unknown") = some a)
    (hn1 : pyGet i1 "number" (JVal.num 0) = some n)
    (ht1 : pyGet i1 "title" (JVal.str "") = some t1)
    (hu1 : pyGet i1 "html_url" (JVal.str "#") = some u1)
    (hr1 : pyGet p1 "repository" (JVal.obj []) = some rp1)
    (hf1 : pyGet rp1 "full_name" (JVal.str "unknown/unknown") = some rf1)
    (hi2 : pyGet p2 "issue" (JVal.obj []) = some i2)
    (ha2 : pyGet p2 "action" (JVal.str "unknown") = some a)
    (hn2 : pyGet i2 "number" (JVal.num 0) = some n)
    (ht2 : pyGet i2 "title" (JVal.str "") = some t2)
    (hu2 : pyGet i2 "html_url" (JVal.str "#") = some u2)
    (hr2 : pyGet p2 "repository" (JVal.obj []) = some rp2)
    (hf2 : pyGet rp2 "full_name" (JVal.str "unknown/unknown") = some rf2)
    (hm1 : pyGet q1 "member" (JVal.obj []) = some m1)
    (hl1 : pyGet m1 "login" (JVal.str "unknown") = some l)
    (hb1 : pyGet q1 "action" (JVal.str "unknown") = some ma)
    (hq1 : pyGet q1 "repository" (JVal.obj []) = some rq1)
    (hg1 : pyGet rq1 "full_name" (JVal.str "unknown/unknown") = some mrf)
    (hv1 : pyGet rq1 "html_url" (JVal.str "#") = some ru1)
    (hm2 : pyGet q2 "member" (JVal.obj []) = some m2)
    (hl2 : pyGet m2 "login" (JVal.str "unknown") = some l)
    (hb2 : pyGet q2 "action" (JVal.str "unknown") = some ma)
    (hq2 : pyGet q2 "repository" (JVal.obj []) = some rq2)
    (hg2 : pyGet rq2 "full_name" (JVal.str "unknown/unknown") = some mrf)
    (hv2 : pyGet rq2 "html_url" (JVal.str "#") = some ru2) :
    (handle_issues dp1 p1).map Prod.snd =
      some ["issue:" ++ pyStr n ++ ":" ++ pyStr a] ∧
    (handle_issues dp2 p2).map Prod.snd =
      some ["issue:" ++ pyStr n ++ ":" ++ pyStr a] ∧
    (handle_member dp3 q1).map Prod.snd =
      some ["member:" ++ pyStr l ++ ":" ++ pyStr mrf ++ ":" ++ pyStr ma] ∧
    (handle_member dp4 q2).map Prod.snd =
      some ["member:" ++ pyStr l ++ ":" ++ pyStr mrf ++ ":" ++ pyStr ma] ∧
    (∀ x y : JVal, pyStr x ≠ pyStr y →
      ("issue:" ++ pyStr n ++ ":" ++ pyStr x) ≠
        ("issue:" ++ pyStr n ++ ":" ++ pyStr y)) := by
  refine ⟨?_, ?_, ?_, ?_, ?_⟩
  · simp [handle_issues, hi1, ha1, hn1, ht1, hu1, hr1, hf1, update_data_store]
  · simp [handle_issues, hi2, ha2, hn2, ht2, hu2, hr2, hf2, update_data_store]
  · simp [handle_member, hm1, hl1, hb1, hq1, hg1, hv1, update_data_store]
  · simp [handle_member, hm2, hl2, hb2, hq2, hg2, hv2, update_data_store]
  · intro x y hxy heq
    exact hxy (string_append_left_cancel _ _ _ heq)

/-- Witness for the amended C2: issue 5 with action `opened` and two
different titles; member `alice` of `o/r` with action `added` and two
different repository URLs. -/
theorem key_stability_amended_witness :
    (handle_issues ⟨[], []⟩ (JVal.obj [("action", JVal.str "opened"),
        ("issue", JVal.obj [("number", JVal.num 5), ("title", JVal.str "T1"),
          ("html_url", JVal.str "U")]),
        ("repository", JVal.obj [("full_name", JVal.str "o/r")])])).map Prod.snd =
      some ["issue:" ++ pyStr (JVal.num 5) ++ ":" ++ pyStr (JVal.str "opened")] ∧
    (handle_issues ⟨[], []⟩ (JVal.obj [("action", JVal.str "opened"),
        ("issue", JVal.obj [("number", JVal.num 5), ("title", JVal.str "T2"),
          ("html_url", JVal.str "U")]),
        ("repository", JVal.obj [("full_name", JVal.str "o/r")])])).map Prod.snd =
      some ["issue:" ++ pyStr (JVal.num 5) ++ ":" ++ pyStr (JVal.str "opened")] ∧
    (handle_member ⟨[], []⟩ (JVal.obj [("action", JVal.str "added"),
        ("member", JVal.obj [("login", JVal.str "alice")]),
        ("repository", JVal.obj [("full_name", JVal.str "o/r"),
          ("html_url", JVal.str "V1")])])).map Prod.snd =
      some ["member:" ++ pyStr (JVal.str "alice") ++ ":" ++
        pyStr (JVal.str "o/r") ++ ":" ++ pyStr (JVal.str "added")] ∧
    (handle_member ⟨[], []⟩ (JVal.obj [("action", JVal.str "added"),
        ("member", JVal.obj [("login", JVal.str "alice")]),
        ("repository", JVal.obj [("full_name", JVal.str "o/r"),
          ("html_url", JVal.str "V2")])])).map Prod.snd =
      some ["member:" ++ pyStr (JVal.str "alice") ++ ":" ++
        pyStr (JVal.str "o/r") ++ ":" ++ pyStr (JVal.str "added")] ∧
    (∀ x y : JVal, pyStr x ≠ pyStr y →
      ("issue:" ++ pyStr (JVal.num 5) ++ ":" ++ pyStr x) ≠
        ("issue:" ++ pyStr (JVal.num 5) ++ ":" ++ pyStr y)) :=
  key_stability_amended ⟨[], []⟩ ⟨[], []⟩ ⟨[], []⟩ ⟨[], []⟩
    _ _ _ _ _ _ _ _ _ _ _ _ _ _ _ _ _ _ _ _ _ _ _ _ _
    rfl rfl rfl rfl rfl rfl rfl rfl rfl rfl rfl rfl rfl rfl
    rfl rfl rfl rfl rfl rfl rfl rfl rfl rfl rfl rfl

/-! ## C5 -/

/-- The field `k` of a payload dict is either absent or itself a dict — the
shapes on which the chained `.get` calls of the handlers cannot raise. -/
def dictish (fields : List (String × JVal)) (k : String) : Bool :=
  match dget fields k with
  | none => true
  | some (.obj _) => true
  | some _ => false

theorem dictish_elim (fields : List (String × JVal)) (k : String)
    (h : dictish fields k = true) (d : List (String × JVal)) :
    ∃ f, dgetD fields k (JVal.obj d) = JVal.obj f := by
  unfold dictish at h
  unfold dgetD
  rcases hh : dget fields k with _ | v
  · exact ⟨d, by simp [hh]⟩
  · rw [hh] at h
    cases v with
    | obj f => exact ⟨f, by simp [hh]⟩
    | str s => simp at h
    | num i => simp at h
    | bool b => simp at h
    | null => simp at h
    | arr xs => simp at h

/-- C5 counterexample: a `check_run` payload missing the category's
discriminating object entirely (the empty payload `{}`) is NOT dropped:
`handle_check_run` substitutes `{}` for the missing `check_run` object,
mutates the Record Store under the sentinel key `check_run:unknown`, and
schedules a sync call for it. -/
theorem check_run_missing_core_counterexample :
    (handle_check_run ⟨[], []⟩ (JVal.obj [])).map
        (fun res => ((dget res.1.DATA_STORE "check_run:unknown").isSome, res.2)) =
      some (true, ["check_run:unknown"]) :=
  rfl

/-- C5 (amended): the `check_run` normalizer never raises and never drops:
for every dict payload whose `check_run` and `repository` members (when
present) are dicts — in particular for a payload with no `check_run` object
at all — it substitutes the documented defaults, mutates the Record Store
under exactly one key, and schedules exactly one sync call for that key.
There is no reject path for a missing core object. -/
theorem check_run_never_rejects (dp : DataPersistence)
    (fields : List (String × JVal))
    (hcr : dictish fields "check_run" = true)
    (hrp : dictish fields "repository" = true) :
    ∃ dp' k rec, handle_check_run dp (JVal.obj fields) = some (dp', [k]) ∧
      dp'.DATA_STORE = dinsert k rec dp.DATA_STORE ∧
      dget dp'.DATA_STORE k = some rec := by
  obtain ⟨crf, hcrf⟩ := dictish_elim fields "check_run" hcr []
  obtain ⟨rpf, hrpf⟩ := dictish_elim fields "repository" hrp []
  have hcomp : handle_check_run dp (JVal.obj fields) =
      some ((update_data_store dp
          ("check_run:" ++ pyStr (dgetD crf "id" (JVal.str "unknown")))
          (JVal.obj [("name", dgetD crf "name" (JVal.str "Unnamed Check")),
            ("url", dgetD crf "html_url" (JVal.str "#")),
            ("status", dgetD crf "status" (JVal.str "unknown")),
            ("conclusion", dgetD crf "conclusion" (JVal.str "unknown")),
            ("head_sha", dgetD crf "head_sha" (JVal.str "unknown")),
            ("repo_full_name", dgetD rpf "full_name" (JVal.str "unknown/unknown"))])
          .ok).1,
        ["check_run:" ++ pyStr (dgetD crf "id" (JVal.str "unknown"))]) := by
    simp [handle_check_run, pyGet, hcrf, hrpf]
  exact ⟨_, _, _, hcomp, rfl, dget_dinsert_same _ _ _⟩

/-- Witness for the amended C5: the empty payload `{}`. -/
theorem check_run_never_rejects_witness :
    dictish [] "check_run" = true ∧ dictish [] "repository" = true ∧
    (∃ dp' k rec, handle_check_run ⟨[], []⟩ (JVal.obj []) = some (dp', [k]) ∧
      dp'.DATA_STORE = dinsert k rec ([] : List (String × JVal)) ∧
      dget dp'.DATA_STORE k = some rec) :=
  ⟨rfl, rfl, check_run_never_rejects ⟨[], []⟩ [] rfl rfl⟩

/-! ## C6 -/

set_option maxHeartbeats 1600000 in
/-- C6: the `workflow_run` normalizer filters on the payload's action: when
the action is anything but the exact string `"completed"`, the handler
returns with the state unchanged and schedules no sync call; when it is
`"completed"` (and the `workflow_run` object is a dict whose `repository`
member, when present, is a dict), the Record Store is updated under
`workflow_run:<run id>` and exactly one sync call is scheduled for that
key. -/
theorem workflow_run_completed_filter (dp : DataPersistence) (p : JVal)
    (wfv a : JVal)
    (hwf : pyGet p "workflow_run" (JVal.obj []) = some wfv)
    (ha : pyGet p "action" (JVal.str "") = some a) :
    (pyEqStr a "completed" = false →
      handle_workflow_run dp p = some (dp, [])) ∧
    (∀ wf, a = JVal.str "completed" → wfv = JVal.obj wf →
      dictish wf "repository" = true →
      ∃ rec, handle_workflow_run dp p =
        some ((update_data_store dp
            ("workflow_run:" ++ pyStr (dgetD wf "id" (JVal.str "unknown"))) rec .ok).1,
          ["workflow_run:" ++ pyStr (dgetD wf "id" (JVal.str "unknown"))])) := by
  constructor
  · intro hcond
    simp [handle_workflow_run, hwf, ha, hcond]
  · intro wf hac hobj hdict
    subst hac
    subst hobj
    obtain ⟨rpf, hrpf⟩ := dictish_elim wf "repository" hdict []
    have hcomp : handle_workflow_run dp p =
        some ((update_data_store dp
            ("workflow_run:" ++ pyStr (dgetD wf "id" (JVal.str "unknown")))
            (JVal.obj [("name", dgetD wf "name" (JVal.str "Unnamed Workflow")),
              ("status", dgetD wf "status" (JVal.str "unknown")),
              ("conclusion", dgetD wf "conclusion" (JVal.str "unknown")),
              ("url", dgetD wf "html_url" (JVal.str "#")),
              ("started_at", dgetD wf "started_at" (JVal.str "")),
              ("completed_at", dgetD wf "completed_at" (JVal.str "")),
              ("head_sha", dgetD wf "head_sha" (JVal.str "unknown")),
              ("repo_full_name", dgetD rpf "full_name" (JVal.str "unknown/unknown"))])
            .ok).1,
          ["workflow_run:" ++ pyStr (dgetD wf "id" (JVal.str "unknown"))]) := by
      unfold handle_workflow_run
      rw [hwf, ha]
      simp only [Option.bind_eq_bind, Option.some_bind, pyEqStr, pyGet]
      rw [hrpf]
      simp only [Option.some_bind]
      norm_num
    exact ⟨_, hcomp⟩

/-- Witness for C6: an `in_progress` run 42 is dropped with no store
mutation and no sync; the subsequent `completed` run 42 updates the store
under `workflow_run:42` and schedules one sync. -/
theorem workflow_run_completed_filter_witness :
    (pyEqStr (JVal.str "in_progress") "completed" = false →
      handle_workflow_run ⟨[], []⟩ (JVal.obj [("action", JVal.str "in_progress"),
        ("workflow_run", JVal.obj [("id", JVal.num 42)])]) =
        some (⟨[], []⟩, [])) ∧
    (∀ wf, JVal.str "in_progress" = JVal.str "completed" →
      JVal.obj [("id", JVal.num 42)] = JVal.obj wf →
      dictish wf "repository" = true →
      ∃ rec, handle_workflow_run ⟨[], []⟩ (JVal.obj [("action", JVal.str "in_progress"),
          ("workflow_run", JVal.obj [("id", JVal.num 42)])]) =
        some ((update_data_store ⟨[], []⟩
            ("workflow_run:" ++ pyStr (dgetD wf "id" (JVal.str "unknown"))) rec .ok).1,
          ["workflow_run:" ++ pyStr (dgetD wf "id" (JVal.str "unknown"))])) :=
  workflow_run_completed_filter ⟨[], []⟩
    (JVal.obj [("action", JVal.str "in_progress"),
      ("workflow_run", JVal.obj [("id", JVal.num 42)])])
    (JVal.obj [("id", JVal.num 42)]) (JVal.str "in_progress") rfl rfl

/-! ## C7 -/

/-- C7: loading the document written by a completed save reproduces exactly
the in-memory state that was current when the save ran — load after save is
the identity on the two maps. -/
theorem load_after_save (dp : DataPersistence) :
    load_data (.content (save_data dp)) = some dp := by
  cases dp with
  | mk ds mm => simp [load_data, save_data, asObjD, dgetD, dget]

/-! ## C8 -/

/-- C8 counterexample: when the disk write raised during the flush of an
upsert, the exception escapes `update_data_store` — the caller does not see
a normal return, contradicting the claim that no exception escapes the store
operation (nothing in `data_persistence.py` catches or logs it).  The
in-memory map does retain the mutation. -/
theorem persistence_failure_counterexample :
    (update_data_store ⟨[], []⟩ "push:abc" (JVal.obj []) .ioError).2 =
      Except.error "OSError" ∧
    (update_data_store ⟨[], []⟩ "push:abc" (JVal.obj []) .ioError).1.DATA_STORE =
      [("push:abc", JVal.obj [])] :=
  ⟨rfl, rfl⟩

/-- C8 (amended): when a persistence write fails during the flush of an
upsert, the mutation of the in-memory map survives (it happened before the
flush) and there is no retry, but the exception is neither caught nor logged
inside the store: it propagates out of `update_data_store` to the caller.
The process still does not crash, because the webhook dispatcher's catch-all
around `handle_event` swallows the exception and returns OK. -/
theorem persistence_failure_amended (dp : DataPersistence) (key : String)
    (value : JVal) :
    (update_data_store dp key value .ioError).1.DATA_STORE =
      dinsert key value dp.DATA_STORE ∧
    (update_data_store dp key value .ioError).2 = Except.error "OSError" ∧
    github_webhook_dispatch (Except.error "OSError") = ("OK", 200) :=
  ⟨rfl, rfl, rfl⟩

/-! ## C9 -/

/-- C9: two successive upserts to the same key leave exactly the second
record — the whole record is overwritten with no field-level merging — and
every other key's entry is unchanged. -/
theorem overwrite_semantics (dp : DataPersistence) (k : String) (r1 r2 : JVal) :
    dget (get_data_store
        (update_data_store (update_data_store dp k r1 .ok).1 k r2 .ok).1) k =
      some r2 ∧
    (∀ k', k' ≠ k →
      dget (get_data_store
          (update_data_store (update_data_store dp k r1 .ok).1 k r2 .ok).1) k' =
        dget (get_data_store dp) k') := by
  constructor
  · exact dget_dinsert_same _ _ _
  · intro k' hk
    show dget (dinsert k r2 (dinsert k r1 dp.DATA_STORE)) k' = dget dp.DATA_STORE k'
    rw [dget_dinsert_other _ _ hk, dget_dinsert_other _ _ hk]

/-- Witness for C9: store holding `x`; upsert `k ↦ 1` then `k ↦ 2`. -/
theorem overwrite_semantics_witness :
    ("x" : String) ≠ "k" ∧
    dget (get_data_store
        (update_data_store (update_data_store ⟨[("x", JVal.null)], []⟩ "k"
          (JVal.num 1) .ok).1 "k" (JVal.num 2) .ok).1) "k" = some (JVal.num 2) ∧
    dget (get_data_store
        (update_data_store (update_data_store ⟨[("x", JVal.null)], []⟩ "k"
          (JVal.num 1) .ok).1 "k" (JVal.num 2) .ok).1) "x" =
      dget (get_data_store (⟨[("x", JVal.null)], []⟩ : DataPersistence)) "x" :=
  ⟨by decide,
   (overwrite_semantics ⟨[("x", JVal.null)], []⟩ "k" (JVal.num 1) (JVal.num 2)).1,
   (overwrite_semantics ⟨[("x", JVal.null)], []⟩ "k" (JVal.num 1) (JVal.num 2)).2
     "x" (by decide)⟩
